import Mathlib

/-!
Verification development for the managed-daemon Service wrapper
(src/Service.ts, src/Constants.ts, src/Interfaces.ts).

The Service class is embedded shallowly: every method becomes a pure
function on an explicit `Service` record.  Asynchronous behaviour of the
Deno event loop is made explicit:

- `start` suspends at `await sleep(...)` (src/Service.ts line 154); the
  suspended continuation (which only runs `this.state = STARTED`, line 156)
  is counted in the field `pendingStarts` and resumed by the step
  `Act.startFinish`.
- `spawn.status().then(...)` (line 143) installs an exit watcher; installed
  watchers not yet fired are counted in `watchersPending` and fired by the
  step `Act.childExit`.
- the tailer reads the log via `reader.read().then(callback)`
  (lines 242 to 250).  A `.then` callback never runs inside the synchronous
  block that registered it, so the bytes read in a poll cycle are delivered
  (stdout write plus `streamed` advance, lines 245 to 246) strictly after
  the synchronous tail of the cycle (lines 252 to 255).  `printLog` takes
  the number of bytes the read will deliver as the argument `avail` and
  applies the delivery after the synchronous part.
- `Deno.kill` may throw when the target process is gone or access is
  denied; the boolean `sigFail` chooses that outcome and the embedding of
  `kill` reproduces the surrounding try/catch (lines 202 to 204).
- closing a resource id that is already closed throws `BadResource` in
  the Deno runtime.  `this.proc` is never cleared by the source, so
  `procOpen` records whether a process resource is held and still open,
  and `proc?.close()` (line 207) errors when it is held but closed.
  Exceptions are modelled with `Except` / the `PromiseResult` type
  (a promise executor that returns without settling gives `pending`).

Operating-system bookkeeping that the claims quantify over is carried in
the record: `openWriteHandles` counts log write handles currently open,
`leakedWriteHandles` those orphaned when `this.rid` was overwritten
without a close; `firedEvents` logs every `this.events.get(e)?.()`
invocation; `stdoutBytes` counts bytes the tailer forwarded.
-/

namespace ManagedDaemon

/-- Lifecycle states, from SERVICE_STATE in src/Constants.ts. -/
inductive ServiceState where
  | READY
  | STARTED
  | STOPPED
  | RESTARTING
  | UNDEFINED
  deriving DecidableEq, Repr

/-- Event names of the callback table, from SERVICE_EVENT in src/Constants.ts. -/
inductive ServiceEvent where
  | onReady
  | onStart
  | onStop
  | onRestart
  deriving DecidableEq, Repr

/-- Runtime log record built by logFileHandler, from the ServicLogFile type
of src/Service.ts lines 7 to 12.  `printTTL` keeps the numeric case only;
the Infinity setting appears in no claim. -/
structure ServicLogFile where
  path : Option String
  print : Bool
  printTTL : Nat
  streamed : Int
  tail : Int
  retryCount : Nat
  deriving DecidableEq, Repr

/-- Shape of the logFile constructor option (src/Interfaces.ts): absent, a
plain path string, or an object with optional print flag and optional
numeric printTTL. -/
inductive LogFileOpt where
  | noLog
  | strPath (path : String)
  | obj (path : String) (printFlag : Option Bool) (printTTL : Option Nat)
  deriving DecidableEq, Repr

/-- Embedding of logFileHandler, src/Service.ts lines 16 to 30. -/
def logFileHandler (logFile : LogFileOpt) : ServicLogFile :=
  let result : ServicLogFile :=
    { path := match logFile with
        | .noLog => none
        | .strPath p => some p
        | .obj p _ _ => some p
      print := match logFile with
        | .obj _ pf _ => pf.getD false
        | _ => false
      printTTL := match logFile with
        | .obj _ _ ttl => ttl.getD 4
        | _ => 4
      streamed := 0
      tail := -1
      retryCount := 0 }
  -- if (isLogFile(logFile) && typeof logFile.printTTL === 'number') result.print = true
  match logFile with
  | .obj _ _ (some _) => { result with print := true }
  | _ => result

/-- One Service instance (fields of the class, src/Service.ts lines 100 to
111) together with the explicit event-loop and operating-system bookkeeping
described in the module comment. -/
structure Service where
  state : ServiceState
  pid : Option Nat
  tid : Option Nat
  rid : Option Nat
  procOpen : Option Bool
  logFile : ServicLogFile
  name : Option String
  command : Option String
  args : List String
  startWait : Nat
  firedEvents : List ServiceEvent
  stdoutBytes : Nat
  pendingStarts : Nat
  watchersPending : Nat
  openWriteHandles : Nat
  leakedWriteHandles : Nat
  deriving DecidableEq, Repr

/-- Constructor options, src/Interfaces.ts ServiceOptions (the fields the
core reads; passthrough spawn options are opaque to every claim). -/
structure ServiceOptions where
  command : Option String
  args : Option (List String)
  name : Option String
  startWait : Option Nat
  logFile : LogFileOpt
  deriving DecidableEq, Repr

/-- Field initialization shared by both constructor branches,
src/Service.ts lines 49 to 63. -/
def baseService (o : ServiceOptions) : Service :=
  { state := .READY
    pid := none
    tid := none
    rid := none
    procOpen := none
    logFile := logFileHandler o.logFile
    name := o.name.or o.command
    command := o.command
    args := o.args.getD []
    startWait := o.startWait.getD 0
    firedEvents := []
    stdoutBytes := 0
    pendingStarts := 0
    watchersPending := 0
    openWriteHandles := 0
    leakedWriteHandles := 0 }

/-- Embedding of the constructor, src/Service.ts lines 47 to 98.  Without a
command (undefined or null) the state is UNDEFINED and nothing fires; with
a command the state is READY and onReady fires. -/
def mkService (o : ServiceOptions) : Service :=
  if o.command = none then { baseService o with state := .UNDEFINED }
  else { baseService o with state := .READY, firedEvents := [ServiceEvent.onReady] }

/-- Invocation of this.events.get(e)?.(), appended to the event log. -/
def fireEvent (s : Service) (e : ServiceEvent) : Service :=
  { s with firedEvents := s.firedEvents ++ [e] }

/-- Embedding of resetLogFileStats, src/Service.ts lines 226 to 230. -/
def Service.resetLogFileStats (s : Service) : Service :=
  { s with logFile := { s.logFile with retryCount := 0, streamed := 0, tail := -1 } }

/-- One poll cycle of the tailer: the printLog closure, src/Service.ts
lines 235 to 257.  `avail` is the number of bytes the initiated read will
deliver, `newTid` a fresh timer id.  The read is started before the early
TTL return, so the delivery happens on every cycle that runs; it lands
after the synchronous checks because `.then` callbacks are asynchronous.
Returns the new service and whether a successor cycle was scheduled. -/
def printLog (s : Service) (avail : Nat) (newTid : Nat) : Service × Bool :=
  if s.logFile.print then
    let s1 := { s with logFile := { s.logFile with tail := s.logFile.streamed } }
    let deliver : Service → Service := fun t =>
      { t with logFile := { t.logFile with streamed := t.logFile.streamed + (avail : Int) }
               stdoutBytes := t.stdoutBytes + avail }
    if s1.logFile.retryCount ≥ s1.logFile.printTTL then (deliver s1, false)
    else
      let s2 :=
        if s1.logFile.streamed > s1.logFile.tail then
          { s1 with logFile := { s1.logFile with retryCount := 0 } }
        else s1
      let s3 :=
        if s2.logFile.streamed = s2.logFile.tail then
          { s2 with logFile := { s2.logFile with retryCount := s2.logFile.retryCount + 1 } }
        else s2
      if s3.state = .STARTED ∨ s3.state = .READY then (deliver { s3 with tid := some newTid }, true)
      else (deliver s3, false)
  else (s, false)

/-- Embedding of printer, src/Service.ts lines 232 to 260: a path guard
around one printLog cycle. -/
def Service.printer (s : Service) (avail newTid : Nat) : Service × Bool :=
  if s.logFile.path = none then (s, false) else printLog s avail newTid

/-- Embedding of the print method, src/Service.ts lines 219 to 224. -/
def Service.print (s : Service) (start : Bool) (avail newTid : Nat) : Service × Bool :=
  if s.logFile.path = none then (s, false)
  else
    let s1 := { s with logFile := { s.logFile with print := start } }
    if s1.logFile.print then s1.printer avail newTid else (s1, false)

/-- Embedding of src/Service.ts lines 201 to 206: when a pid is recorded,
Deno.kill is attempted; `sigFail` chooses whether it throws (process gone
or access denied) and the try/catch of lines 202 to 204 swallows the throw
either way; the pid is cleared. -/
def killPidStep (s : Service) (sigFail : Bool) : Service :=
  if s.pid ≠ none then
    if sigFail then { s with pid := none } else { s with pid := none }
  else s

/-- Embedding of src/Service.ts line 207, proc?.close(), on the non-throw
path: an open process resource is closed. -/
def killProcStep (s : Service) : Service :=
  if s.procOpen = some true then { s with procOpen := some false } else s

/-- Embedding of src/Service.ts lines 208 to 211: a pending tailer timer is
cancelled. -/
def killTidStep (s : Service) : Service :=
  if s.tid ≠ none then { s with tid := none } else s

/-- Embedding of src/Service.ts lines 212 to 215: the tracked log write
handle is closed. -/
def killRidStep (s : Service) : Service :=
  if s.rid ≠ none then
    { s with rid := none, openWriteHandles := s.openWriteHandles - 1 }
  else s

/-- Embedding of kill, src/Service.ts lines 199 to 216, composed from the
stage functions above in source order.  `proc?.close()` on a process
resource that is held but already closed throws BadResource (this.proc is
never cleared by the source), which kill does not catch: the error value
carries the partially mutated service. -/
def Service.kill (s : Service) (sigFail : Bool) : Except Service Service :=
  if s.state = .UNDEFINED then .ok s
  else
    let s1 := killPidStep s sigFail
    if s1.procOpen = some false then .error s1
    else .ok (killRidStep (killTidStep (killProcStep s1)))

/-- Outcome of a method that returns a promise: settled by resolve, settled
by reject, or returned without settling (the UNDEFINED early return inside
the executors of stop and restart). -/
inductive PromiseResult where
  | resolved (s : Service)
  | rejected (s : Service)
  | pending (s : Service)
  deriving DecidableEq, Repr

/-- Service carried by a promise outcome. -/
def svcOf : PromiseResult → Service
  | .resolved s => s
  | .rejected s => s
  | .pending s => s

/-- True exactly on a resolved outcome. -/
def PromiseResult.isResolved : PromiseResult → Bool
  | .resolved _ => true
  | _ => false

/-- True exactly on a rejected outcome. -/
def PromiseResult.isRejected : PromiseResult → Bool
  | .rejected _ => true
  | _ => false

/-- Embedding of stop, src/Service.ts lines 160 to 172: kill, set STOPPED,
fire onStop, resolve; a throw inside the try is caught and rejects. -/
def Service.stop (s : Service) (sigFail : Bool) : PromiseResult :=
  if s.state = .UNDEFINED then .pending s
  else
    match s.kill sigFail with
    | .error s1 => .rejected s1
    | .ok s1 => .resolved (fireEvent { s1 with state := .STOPPED } .onStop)

/-- Result of a start call: the service after the synchronous part, and the
sleep duration when the call suspended at `await sleep(...)` (the suspended
continuation is counted in pendingStarts and later sets STARTED). -/
structure StartOutcome where
  svc : Service
  sleepMs : Option Nat
  deriving DecidableEq, Repr

/-- Embedding of src/Service.ts line 132: when a log path is configured,
Deno.openSync opens a fresh write handle (otherwise writable is -1 and no
handle exists). -/
def startOpenHandleStep (s : Service) : Service :=
  if s.logFile.path ≠ none then { s with openWriteHandles := s.openWriteHandles + 1 } else s

/-- Embedding of src/Service.ts lines 133 to 139: Deno.run spawns a child;
a fresh open process resource replaces any previous proc reference. -/
def startSpawnStep (s : Service) : Service :=
  { s with procOpen := some true }

/-- Embedding of src/Service.ts line 141: when a handle was opened its rid
is recorded, silently orphaning a previously tracked open handle. -/
def startRidStep (s : Service) (newRid : Nat) : Service :=
  if s.logFile.path ≠ none then
    { s with rid := some newRid
             leakedWriteHandles := s.leakedWriteHandles + (if s.rid ≠ none then 1 else 0) }
  else s

/-- Embedding of src/Service.ts lines 143 to 150: spawn.status().then
installs the natural-exit watcher. -/
def startWatcherStep (s : Service) : Service :=
  { s with watchersPending := s.watchersPending + 1 }

/-- Synchronous body of start before the warm-up decision, src/Service.ts
lines 130 to 152 in source order: resetLogFileStats, onStart, open the
write handle, spawn, record the rid, install the exit watcher, run one
printer cycle in the current pre-STARTED state, record the pid. -/
def startBody (s : Service) (newPid newRid newTid avail : Nat) : Service :=
  let s1 := fireEvent s.resetLogFileStats .onStart
  let s5 := startWatcherStep (startRidStep (startSpawnStep (startOpenHandleStep s1)) newRid)
  let s6 := (s5.printer avail newTid).1
  { s6 with pid := some newPid }

/-- Embedding of start, src/Service.ts lines 127 to 157: UNDEFINED guard,
the synchronous body, then either suspend for the warm-up sleep of lines
153 to 155 or set STARTED at once.  `wait` is the optional argument;
absent means the default 0. -/
def Service.start (s : Service) (wait : Option Nat) (newPid newRid newTid avail : Nat) :
    StartOutcome :=
  let w := wait.getD 0
  if s.state = .UNDEFINED then ⟨s, none⟩
  else
    let s7 := startBody s newPid newRid newTid avail
    if w > 0 ∨ s7.startWait > 0 then
      ⟨{ s7 with pendingStarts := s7.pendingStarts + 1 }, some (if w = 0 then s7.startWait else w)⟩
    else
      ⟨{ s7 with state := .STARTED }, none⟩

/-- Embedding of restart, src/Service.ts lines 179 to 192: default wait 1,
UNDEFINED guard (executor returns unsettled), set RESTARTING, kill (a throw
is caught and rejects), fire onRestart, then resolve with start(wait).
The second component is the sleep duration of the inner start. -/
def Service.restart (s : Service) (wait : Option Nat) (newPid newRid newTid avail : Nat)
    (sigFail : Bool) : PromiseResult × Option Nat :=
  let w := wait.getD 1
  if s.state = .UNDEFINED then (.pending s, none)
  else
    match ({ s with state := ServiceState.RESTARTING } : Service).kill sigFail with
    | .error s1 => (.rejected s1, none)
    | .ok s1 =>
      (.resolved ((fireEvent s1 .onRestart).start (some w) newPid newRid newTid avail).svc,
        ((fireEvent s1 .onRestart).start (some w) newPid newRid newTid avail).sleepMs)

/-- Atomic steps of the cooperative event loop: the four public lifecycle
calls, the resumption of a suspended start after its warm-up sleep, the
firing of a scheduled tailer timer, and the firing of the exit watcher
when the child process ends (src/Service.ts lines 143 to 150). -/
inductive Act where
  | startCall (wait : Option Nat) (newPid newRid newTid avail : Nat)
  | startFinish
  | stopCall (sigFail : Bool)
  | restartCall (wait : Option Nat) (newPid newRid newTid avail : Nat) (sigFail : Bool)
  | killCall (sigFail : Bool)
  | timerFire (avail newTid : Nat)
  | childExit (sigFail : Bool)
  deriving DecidableEq, Repr

/-- Service carried by a kill outcome, thrown or returned. -/
def exceptSvc : Except Service Service → Service
  | .ok s => s
  | .error s => s

/-- One step of the event loop; none when the action is not enabled. -/
def stepFn (s : Service) : Act → Option Service
  | .startCall w p r t a => some (s.start w p r t a).svc
  | .startFinish =>
      if s.pendingStarts > 0 then
        some { s with pendingStarts := s.pendingStarts - 1, state := .STARTED }
      else none
  | .stopCall b => some (svcOf (s.stop b))
  | .restartCall w p r t a b => some (svcOf (s.restart w p r t a b).1)
  | .killCall b => some (exceptSvc (s.kill b))
  | .timerFire a t => if s.tid ≠ none then some (printLog s a t).1 else none
  | .childExit b =>
      if s.watchersPending > 0 then
        let s1 := { s with watchersPending := s.watchersPending - 1 }
        if s1.state = .STOPPED then some s1
        else
          some (match s1.kill b with
            | .ok s2 => fireEvent { s2 with state := ServiceState.STOPPED } .onStop
            | .error s2 => s2)
      else none

/-- Run a list of steps, failing when one is not enabled. -/
def applyActs (s : Service) : List Act → Option Service
  | [] => some s
  | a :: rest =>
      match stepFn s a with
      | some s2 => applyActs s2 rest
      | none => none

/-- States reachable from a given state by event-loop steps. -/
inductive ReachableFrom : Service → Service → Prop where
  | refl (s : Service) : ReachableFrom s s
  | step {s0 s1 s2 : Service} (a : Act) :
      ReachableFrom s0 s1 → stepFn s1 a = some s2 → ReachableFrom s0 s2

/-- States reachable from some freshly constructed service. -/
def Reachable (s : Service) : Prop :=
  ∃ o : ServiceOptions, ReachableFrom (mkService o) s

/-! Projection lemmas: a printLog cycle only touches logFile, tid and
stdoutBytes. -/

@[simp] theorem printLog_fst_state (s : Service) (a t : Nat) :
    ((printLog s a t).1).state = s.state := by
  simp only [printLog]; split_ifs <;> rfl

@[simp] theorem printLog_fst_pid (s : Service) (a t : Nat) :
    ((printLog s a t).1).pid = s.pid := by
  simp only [printLog]; split_ifs <;> rfl

@[simp] theorem printLog_fst_rid (s : Service) (a t : Nat) :
    ((printLog s a t).1).rid = s.rid := by
  simp only [printLog]; split_ifs <;> rfl

@[simp] theorem printLog_fst_procOpen (s : Service) (a t : Nat) :
    ((printLog s a t).1).procOpen = s.procOpen := by
  simp only [printLog]; split_ifs <;> rfl

@[simp] theorem printLog_fst_pendingStarts (s : Service) (a t : Nat) :
    ((printLog s a t).1).pendingStarts = s.pendingStarts := by
  simp only [printLog]; split_ifs <;> rfl

@[simp] theorem printLog_fst_watchersPending (s : Service) (a t : Nat) :
    ((printLog s a t).1).watchersPending = s.watchersPending := by
  simp only [printLog]; split_ifs <;> rfl

@[simp] theorem printLog_fst_openWriteHandles (s : Service) (a t : Nat) :
    ((printLog s a t).1).openWriteHandles = s.openWriteHandles := by
  simp only [printLog]; split_ifs <;> rfl

@[simp] theorem printLog_fst_leakedWriteHandles (s : Service) (a t : Nat) :
    ((printLog s a t).1).leakedWriteHandles = s.leakedWriteHandles := by
  simp only [printLog]; split_ifs <;> rfl

@[simp] theorem printLog_fst_startWait (s : Service) (a t : Nat) :
    ((printLog s a t).1).startWait = s.startWait := by
  simp only [printLog]; split_ifs <;> rfl

@[simp] theorem printLog_fst_firedEvents (s : Service) (a t : Nat) :
    ((printLog s a t).1).firedEvents = s.firedEvents := by
  simp only [printLog]; split_ifs <;> rfl

@[simp] theorem printer_fst_state (s : Service) (a t : Nat) :
    ((s.printer a t).1).state = s.state := by
  unfold Service.printer; split_ifs <;> simp

@[simp] theorem printer_fst_pid (s : Service) (a t : Nat) :
    ((s.printer a t).1).pid = s.pid := by
  unfold Service.printer; split_ifs <;> simp

@[simp] theorem printer_fst_rid (s : Service) (a t : Nat) :
    ((s.printer a t).1).rid = s.rid := by
  unfold Service.printer; split_ifs <;> simp

@[simp] theorem printer_fst_procOpen (s : Service) (a t : Nat) :
    ((s.printer a t).1).procOpen = s.procOpen := by
  unfold Service.printer; split_ifs <;> simp

@[simp] theorem printer_fst_pendingStarts (s : Service) (a t : Nat) :
    ((s.printer a t).1).pendingStarts = s.pendingStarts := by
  unfold Service.printer; split_ifs <;> simp

@[simp] theorem printer_fst_watchersPending (s : Service) (a t : Nat) :
    ((s.printer a t).1).watchersPending = s.watchersPending := by
  unfold Service.printer; split_ifs <;> simp

@[simp] theorem printer_fst_openWriteHandles (s : Service) (a t : Nat) :
    ((s.printer a t).1).openWriteHandles = s.openWriteHandles := by
  unfold Service.printer; split_ifs <;> simp

@[simp] theorem printer_fst_leakedWriteHandles (s : Service) (a t : Nat) :
    ((s.printer a t).1).leakedWriteHandles = s.leakedWriteHandles := by
  unfold Service.printer; split_ifs <;> simp

@[simp] theorem printer_fst_startWait (s : Service) (a t : Nat) :
    ((s.printer a t).1).startWait = s.startWait := by
  unfold Service.printer; split_ifs <;> simp

/-! Characterization of the kill stages. -/

@[simp] theorem killPidStep_pid (s : Service) (b : Bool) : (killPidStep s b).pid = none := by
  unfold killPidStep
  split_ifs <;> simp_all

@[simp] theorem killPidStep_state (s : Service) (b : Bool) :
    (killPidStep s b).state = s.state := by
  unfold killPidStep; split_ifs <;> rfl

@[simp] theorem killPidStep_tid (s : Service) (b : Bool) :
    (killPidStep s b).tid = s.tid := by
  unfold killPidStep; split_ifs <;> rfl

@[simp] theorem killPidStep_rid (s : Service) (b : Bool) :
    (killPidStep s b).rid = s.rid := by
  unfold killPidStep; split_ifs <;> rfl

@[simp] theorem killPidStep_procOpen (s : Service) (b : Bool) :
    (killPidStep s b).procOpen = s.procOpen := by
  unfold killPidStep; split_ifs <;> rfl

@[simp] theorem killPidStep_pendingStarts (s : Service) (b : Bool) :
    (killPidStep s b).pendingStarts = s.pendingStarts := by
  unfold killPidStep; split_ifs <;> rfl

@[simp] theorem killPidStep_watchersPending (s : Service) (b : Bool) :
    (killPidStep s b).watchersPending = s.watchersPending := by
  unfold killPidStep; split_ifs <;> rfl

@[simp] theorem killPidStep_openWriteHandles (s : Service) (b : Bool) :
    (killPidStep s b).openWriteHandles = s.openWriteHandles := by
  unfold killPidStep; split_ifs <;> rfl

@[simp] theorem killPidStep_leakedWriteHandles (s : Service) (b : Bool) :
    (killPidStep s b).leakedWriteHandles = s.leakedWriteHandles := by
  unfold killPidStep; split_ifs <;> rfl

/-- The caught Deno.kill outcome is invisible: both catch branches clear
the pid identically. -/
theorem killPidStep_sigFail (s : Service) (b : Bool) : killPidStep s b = killPidStep s false := by
  unfold killPidStep
  simp only [ite_self]

@[simp] theorem killProcStep_pid (s : Service) : (killProcStep s).pid = s.pid := by
  unfold killProcStep; split_ifs <;> rfl

@[simp] theorem killProcStep_state (s : Service) : (killProcStep s).state = s.state := by
  unfold killProcStep; split_ifs <;> rfl

@[simp] theorem killProcStep_tid (s : Service) : (killProcStep s).tid = s.tid := by
  unfold killProcStep; split_ifs <;> rfl

@[simp] theorem killProcStep_rid (s : Service) : (killProcStep s).rid = s.rid := by
  unfold killProcStep; split_ifs <;> rfl

@[simp] theorem killProcStep_pendingStarts (s : Service) :
    (killProcStep s).pendingStarts = s.pendingStarts := by
  unfold killProcStep; split_ifs <;> rfl

@[simp] theorem killProcStep_watchersPending (s : Service) :
    (killProcStep s).watchersPending = s.watchersPending := by
  unfold killProcStep; split_ifs <;> rfl

@[simp] theorem killProcStep_openWriteHandles (s : Service) :
    (killProcStep s).openWriteHandles = s.openWriteHandles := by
  unfold killProcStep; split_ifs <;> rfl

@[simp] theorem killProcStep_leakedWriteHandles (s : Service) :
    (killProcStep s).leakedWriteHandles = s.leakedWriteHandles := by
  unfold killProcStep; split_ifs <;> rfl

@[simp] theorem killTidStep_tid (s : Service) : (killTidStep s).tid = none := by
  unfold killTidStep
  split_ifs <;> simp_all

@[simp] theorem killTidStep_pid (s : Service) : (killTidStep s).pid = s.pid := by
  unfold killTidStep; split_ifs <;> rfl

@[simp] theorem killTidStep_state (s : Service) : (killTidStep s).state = s.state := by
  unfold killTidStep; split_ifs <;> rfl

@[simp] theorem killTidStep_rid (s : Service) : (killTidStep s).rid = s.rid := by
  unfold killTidStep; split_ifs <;> rfl

@[simp] theorem killTidStep_procOpen (s : Service) : (killTidStep s).procOpen = s.procOpen := by
  unfold killTidStep; split_ifs <;> rfl

@[simp] theorem killTidStep_pendingStarts (s : Service) :
    (killTidStep s).pendingStarts = s.pendingStarts := by
  unfold killTidStep; split_ifs <;> rfl

@[simp] theorem killTidStep_watchersPending (s : Service) :
    (killTidStep s).watchersPending = s.watchersPending := by
  unfold killTidStep; split_ifs <;> rfl

@[simp] theorem killTidStep_openWriteHandles (s : Service) :
    (killTidStep s).openWriteHandles = s.openWriteHandles := by
  unfold killTidStep; split_ifs <;> rfl

@[simp] theorem killTidStep_leakedWriteHandles (s : Service) :
    (killTidStep s).leakedWriteHandles = s.leakedWriteHandles := by
  unfold killTidStep; split_ifs <;> rfl

@[simp] theorem killRidStep_rid (s : Service) : (killRidStep s).rid = none := by
  unfold killRidStep
  split_ifs <;> simp_all

@[simp] theorem killRidStep_pid (s : Service) : (killRidStep s).pid = s.pid := by
  unfold killRidStep; split_ifs <;> rfl

@[simp] theorem killRidStep_state (s : Service) : (killRidStep s).state = s.state := by
  unfold killRidStep; split_ifs <;> rfl

@[simp] theorem killRidStep_tid (s : Service) : (killRidStep s).tid = s.tid := by
  unfold killRidStep; split_ifs <;> rfl

@[simp] theorem killRidStep_pendingStarts (s : Service) :
    (killRidStep s).pendingStarts = s.pendingStarts := by
  unfold killRidStep; split_ifs <;> rfl

@[simp] theorem killRidStep_watchersPending (s : Service) :
    (killRidStep s).watchersPending = s.watchersPending := by
  unfold killRidStep; split_ifs <;> rfl

@[simp] theorem killRidStep_leakedWriteHandles (s : Service) :
    (killRidStep s).leakedWriteHandles = s.leakedWriteHandles := by
  unfold killRidStep; split_ifs <;> rfl

/-- Closing the tracked handle preserves the handle accounting. -/
theorem killRidStep_handleCount (s : Service)
    (h : s.openWriteHandles = s.leakedWriteHandles + (if s.rid = none then 0 else 1)) :
    (killRidStep s).openWriteHandles = s.leakedWriteHandles := by
  unfold killRidStep
  split_ifs with hr
  · rw [if_neg hr] at h
    show s.openWriteHandles - 1 = s.leakedWriteHandles
    omega
  · rw [if_pos (by simpa using hr)] at h
    show s.openWriteHandles = s.leakedWriteHandles
    omega

/-! Characterization of kill. -/

/-- Kill clears the pid outside the UNDEFINED state, on the thrown path as
well, since `this.pid = null` (line 205) runs before `proc?.close()`. -/
theorem kill_pid (s : Service) (b : Bool) (h : s.state ≠ .UNDEFINED) :
    (exceptSvc (s.kill b)).pid = none := by
  simp only [Service.kill, if_neg h]
  by_cases hp : s.procOpen = some false <;> simp [hp, exceptSvc]

/-- Kill never changes the state field. -/
theorem kill_state (s : Service) (b : Bool) :
    (exceptSvc (s.kill b)).state = s.state := by
  simp only [Service.kill]
  by_cases h0 : s.state = .UNDEFINED
  · simp [h0, exceptSvc]
  · simp only [if_neg h0]
    by_cases hp : s.procOpen = some false <;> simp [hp, exceptSvc]

/-- Kill never changes the pending start count. -/
theorem kill_pendingStarts (s : Service) (b : Bool) :
    (exceptSvc (s.kill b)).pendingStarts = s.pendingStarts := by
  simp only [Service.kill]
  by_cases h0 : s.state = .UNDEFINED
  · simp [h0, exceptSvc]
  · simp only [if_neg h0]
    by_cases hp : s.procOpen = some false <;> simp [hp, exceptSvc]

/-- Kill never changes the watcher count. -/
theorem kill_watchersPending (s : Service) (b : Bool) :
    (exceptSvc (s.kill b)).watchersPending = s.watchersPending := by
  simp only [Service.kill]
  by_cases h0 : s.state = .UNDEFINED
  · simp [h0, exceptSvc]
  · simp only [if_neg h0]
    by_cases hp : s.procOpen = some false <;> simp [hp, exceptSvc]

/-- Whether Deno.kill threw is invisible after the catch: the whole of
kill is independent of the signal failure. -/
theorem kill_sigFail (s : Service) (b : Bool) : s.kill b = s.kill false := by
  unfold Service.kill
  rw [killPidStep_sigFail]

/-! The two inductive invariants used by the claims. -/

/-- Pid discipline: no pid in UNDEFINED, and no pid in READY or STOPPED
while no start call is suspended in its warm-up sleep. -/
def PidInv (s : Service) : Prop :=
  (s.state = .UNDEFINED → s.pid = none) ∧
  (s.pendingStarts = 0 → (s.state = .READY ∨ s.state = .STOPPED) → s.pid = none)

theorem pidInv_of_pid_none {s : Service} (h : s.pid = none) : PidInv s :=
  ⟨fun _ => h, fun _ _ => h⟩

/-- Write-handle accounting: the open handles are the orphaned ones plus
the tracked one when rid is set. -/
def HandleInv (s : Service) : Prop :=
  s.openWriteHandles = s.leakedWriteHandles + (if s.rid = none then 0 else 1)

theorem kill_handleInv (s : Service) (b : Bool) (h : HandleInv s) :
    HandleInv (exceptSvc (s.kill b)) := by
  unfold HandleInv at *
  simp only [Service.kill]
  by_cases h0 : s.state = .UNDEFINED
  · simpa [h0, exceptSvc] using h
  · simp only [if_neg h0]
    by_cases hp : s.procOpen = some false
    · simpa [hp, exceptSvc] using h
    · simp only [if_neg hp, exceptSvc]
      have hin : (killTidStep (killProcStep (killPidStep s b))).openWriteHandles
          = (killTidStep (killProcStep (killPidStep s b))).leakedWriteHandles +
            (if (killTidStep (killProcStep (killPidStep s b))).rid = none then 0 else 1) := by
        simpa using h
      have hc := killRidStep_handleCount _ hin
      simp_all

/-! Characterization of start, stop and restart. -/

@[simp] theorem svcOf_resolved (s : Service) : svcOf (.resolved s) = s := rfl

@[simp] theorem svcOf_rejected (s : Service) : svcOf (.rejected s) = s := rfl

@[simp] theorem svcOf_pending (s : Service) : svcOf (.pending s) = s := rfl

@[simp] theorem fireEvent_state (s : Service) (e : ServiceEvent) :
    (fireEvent s e).state = s.state := rfl

@[simp] theorem fireEvent_pid (s : Service) (e : ServiceEvent) :
    (fireEvent s e).pid = s.pid := rfl

@[simp] theorem fireEvent_rid (s : Service) (e : ServiceEvent) :
    (fireEvent s e).rid = s.rid := rfl

@[simp] theorem fireEvent_logFile (s : Service) (e : ServiceEvent) :
    (fireEvent s e).logFile = s.logFile := rfl

@[simp] theorem fireEvent_pendingStarts (s : Service) (e : ServiceEvent) :
    (fireEvent s e).pendingStarts = s.pendingStarts := rfl

@[simp] theorem fireEvent_startWait (s : Service) (e : ServiceEvent) :
    (fireEvent s e).startWait = s.startWait := rfl

@[simp] theorem fireEvent_openWriteHandles (s : Service) (e : ServiceEvent) :
    (fireEvent s e).openWriteHandles = s.openWriteHandles := rfl

@[simp] theorem fireEvent_leakedWriteHandles (s : Service) (e : ServiceEvent) :
    (fireEvent s e).leakedWriteHandles = s.leakedWriteHandles := rfl

@[simp] theorem resetLogFileStats_state (s : Service) :
    s.resetLogFileStats.state = s.state := rfl

@[simp] theorem resetLogFileStats_pid (s : Service) :
    s.resetLogFileStats.pid = s.pid := rfl

@[simp] theorem resetLogFileStats_rid (s : Service) :
    s.resetLogFileStats.rid = s.rid := rfl

@[simp] theorem resetLogFileStats_path (s : Service) :
    s.resetLogFileStats.logFile.path = s.logFile.path := rfl

@[simp] theorem resetLogFileStats_pendingStarts (s : Service) :
    s.resetLogFileStats.pendingStarts = s.pendingStarts := rfl

@[simp] theorem resetLogFileStats_startWait (s : Service) :
    s.resetLogFileStats.startWait = s.startWait := rfl

@[simp] theorem resetLogFileStats_openWriteHandles (s : Service) :
    s.resetLogFileStats.openWriteHandles = s.openWriteHandles := rfl

@[simp] theorem resetLogFileStats_leakedWriteHandles (s : Service) :
    s.resetLogFileStats.leakedWriteHandles = s.leakedWriteHandles := rfl

@[simp] theorem startOpenHandleStep_state (s : Service) :
    (startOpenHandleStep s).state = s.state := by
  unfold startOpenHandleStep; split_ifs <;> rfl

@[simp] theorem startOpenHandleStep_pid (s : Service) :
    (startOpenHandleStep s).pid = s.pid := by
  unfold startOpenHandleStep; split_ifs <;> rfl

@[simp] theorem startOpenHandleStep_rid (s : Service) :
    (startOpenHandleStep s).rid = s.rid := by
  unfold startOpenHandleStep; split_ifs <;> rfl

@[simp] theorem startOpenHandleStep_logFile (s : Service) :
    (startOpenHandleStep s).logFile = s.logFile := by
  unfold startOpenHandleStep; split_ifs <;> rfl

@[simp] theorem startOpenHandleStep_pendingStarts (s : Service) :
    (startOpenHandleStep s).pendingStarts = s.pendingStarts := by
  unfold startOpenHandleStep; split_ifs <;> rfl

@[simp] theorem startOpenHandleStep_startWait (s : Service) :
    (startOpenHandleStep s).startWait = s.startWait := by
  unfold startOpenHandleStep; split_ifs <;> rfl

@[simp] theorem startOpenHandleStep_leakedWriteHandles (s : Service) :
    (startOpenHandleStep s).leakedWriteHandles = s.leakedWriteHandles := by
  unfold startOpenHandleStep; split_ifs <;> rfl

theorem startOpenHandleStep_openWriteHandles (s : Service) :
    (startOpenHandleStep s).openWriteHandles =
      s.openWriteHandles + (if s.logFile.path = none then 0 else 1) := by
  unfold startOpenHandleStep
  split_ifs <;> simp_all

@[simp] theorem startSpawnStep_state (s : Service) :
    (startSpawnStep s).state = s.state := rfl

@[simp] theorem startSpawnStep_pid (s : Service) :
    (startSpawnStep s).pid = s.pid := rfl

@[simp] theorem startSpawnStep_rid (s : Service) :
    (startSpawnStep s).rid = s.rid := rfl

@[simp] theorem startSpawnStep_logFile (s : Service) :
    (startSpawnStep s).logFile = s.logFile := rfl

@[simp] theorem startSpawnStep_pendingStarts (s : Service) :
    (startSpawnStep s).pendingStarts = s.pendingStarts := rfl

@[simp] theorem startSpawnStep_startWait (s : Service) :
    (startSpawnStep s).startWait = s.startWait := rfl

@[simp] theorem startSpawnStep_openWriteHandles (s : Service) :
    (startSpawnStep s).openWriteHandles = s.openWriteHandles := rfl

@[simp] theorem startSpawnStep_leakedWriteHandles (s : Service) :
    (startSpawnStep s).leakedWriteHandles = s.leakedWriteHandles := rfl

@[simp] theorem startRidStep_state (s : Service) (r : Nat) :
    (startRidStep s r).state = s.state := by
  unfold startRidStep; split_ifs <;> rfl

@[simp] theorem startRidStep_pid (s : Service) (r : Nat) :
    (startRidStep s r).pid = s.pid := by
  unfold startRidStep; split_ifs <;> rfl

@[simp] theorem startRidStep_logFile (s : Service) (r : Nat) :
    (startRidStep s r).logFile = s.logFile := by
  unfold startRidStep; split_ifs <;> rfl

@[simp] theorem startRidStep_pendingStarts (s : Service) (r : Nat) :
    (startRidStep s r).pendingStarts = s.pendingStarts := by
  unfold startRidStep; split_ifs <;> rfl

@[simp] theorem startRidStep_startWait (s : Service) (r : Nat) :
    (startRidStep s r).startWait = s.startWait := by
  unfold startRidStep; split_ifs <;> rfl

@[simp] theorem startRidStep_openWriteHandles (s : Service) (r : Nat) :
    (startRidStep s r).openWriteHandles = s.openWriteHandles := by
  unfold startRidStep; split_ifs <;> rfl

theorem startRidStep_rid (s : Service) (r : Nat) :
    (startRidStep s r).rid = if s.logFile.path = none then s.rid else some r := by
  unfold startRidStep
  split_ifs <;> simp_all

theorem startRidStep_leakedWriteHandles (s : Service) (r : Nat) :
    (startRidStep s r).leakedWriteHandles =
      if s.logFile.path = none then s.leakedWriteHandles
      else s.leakedWriteHandles + (if s.rid = none then 0 else 1) := by
  unfold startRidStep
  split_ifs <;> simp_all

@[simp] theorem startWatcherStep_state (s : Service) :
    (startWatcherStep s).state = s.state := rfl

@[simp] theorem startWatcherStep_pid (s : Service) :
    (startWatcherStep s).pid = s.pid := rfl

@[simp] theorem startWatcherStep_rid (s : Service) :
    (startWatcherStep s).rid = s.rid := rfl

@[simp] theorem startWatcherStep_logFile (s : Service) :
    (startWatcherStep s).logFile = s.logFile := rfl

@[simp] theorem startWatcherStep_pendingStarts (s : Service) :
    (startWatcherStep s).pendingStarts = s.pendingStarts := rfl

@[simp] theorem startWatcherStep_startWait (s : Service) :
    (startWatcherStep s).startWait = s.startWait := rfl

@[simp] theorem startWatcherStep_openWriteHandles (s : Service) :
    (startWatcherStep s).openWriteHandles = s.openWriteHandles := rfl

@[simp] theorem startWatcherStep_leakedWriteHandles (s : Service) :
    (startWatcherStep s).leakedWriteHandles = s.leakedWriteHandles := rfl

@[simp] theorem startBody_state (s : Service) (p r t a : Nat) :
    (startBody s p r t a).state = s.state := by
  simp [startBody]

@[simp] theorem startBody_pid (s : Service) (p r t a : Nat) :
    (startBody s p r t a).pid = some p := rfl

@[simp] theorem startBody_pendingStarts (s : Service) (p r t a : Nat) :
    (startBody s p r t a).pendingStarts = s.pendingStarts := by
  simp [startBody]

@[simp] theorem startBody_startWait (s : Service) (p r t a : Nat) :
    (startBody s p r t a).startWait = s.startWait := by
  simp [startBody]

theorem startBody_rid (s : Service) (p r t a : Nat) :
    (startBody s p r t a).rid = if s.logFile.path = none then s.rid else some r := by
  simp [startBody, startRidStep_rid]

theorem startBody_openWriteHandles (s : Service) (p r t a : Nat) :
    (startBody s p r t a).openWriteHandles =
      s.openWriteHandles + (if s.logFile.path = none then 0 else 1) := by
  simp [startBody, startOpenHandleStep_openWriteHandles]

theorem startBody_leakedWriteHandles (s : Service) (p r t a : Nat) :
    (startBody s p r t a).leakedWriteHandles =
      if s.logFile.path = none then s.leakedWriteHandles
      else s.leakedWriteHandles + (if s.rid = none then 0 else 1) := by
  simp [startBody, startRidStep_leakedWriteHandles]

/-- Start from UNDEFINED returns unchanged without sleeping. -/
theorem start_undefined (s : Service) (w : Option Nat) (p r t a : Nat)
    (h : s.state = .UNDEFINED) : s.start w p r t a = ⟨s, none⟩ := by
  simp [Service.start, h]

/-- Start records the pid of the spawn outside UNDEFINED. -/
theorem start_pid (s : Service) (w : Option Nat) (p r t a : Nat) (h : s.state ≠ .UNDEFINED) :
    (s.start w p r t a).svc.pid = some p := by
  simp only [Service.start, if_neg h]
  split_ifs <;> simp

/-- Outside UNDEFINED a start call either suspends (keeping the state and
counting one more pending continuation) or completes with state STARTED. -/
theorem start_cases (s : Service) (w : Option Nat) (p r t a : Nat) (h : s.state ≠ .UNDEFINED) :
    ((s.start w p r t a).svc.state = s.state ∧
     (s.start w p r t a).svc.pendingStarts = s.pendingStarts + 1) ∨
    (s.start w p r t a).svc.state = .STARTED := by
  by_cases hs : 0 < w.getD 0 ∨ 0 < s.startWait
  · left
    constructor <;> simp [Service.start, if_neg h, hs]
  · right
    simp [Service.start, if_neg h, hs]

/-- Start preserves the write-handle accounting: a fresh handle is opened
exactly when the rid is overwritten, orphaning a tracked handle if any. -/
theorem start_handleInv (s : Service) (w : Option Nat) (p r t a : Nat) (h : HandleInv s) :
    HandleInv (s.start w p r t a).svc := by
  by_cases h0 : s.state = .UNDEFINED
  · rw [start_undefined s w p r t a h0]
    exact h
  · have hbody : HandleInv (startBody s p r t a) := by
      unfold HandleInv
      rw [startBody_openWriteHandles, startBody_leakedWriteHandles, startBody_rid]
      by_cases hp : s.logFile.path = none
      · simpa [hp, HandleInv] using h
      · simp only [if_neg hp]
        unfold HandleInv at h
        cases hrid : s.rid <;> simp_all
    simp only [Service.start, if_neg h0]
    by_cases hs : w.getD 0 > 0 ∨ (startBody s p r t a).startWait > 0
    · rw [if_pos hs]
      exact hbody
    · rw [if_neg hs]
      exact hbody

/-- Stop clears the pid outside UNDEFINED, whether it resolves or rejects. -/
theorem stop_pid (s : Service) (b : Bool) (h : s.state ≠ .UNDEFINED) :
    (svcOf (s.stop b)).pid = none := by
  have hk := kill_pid s b h
  unfold Service.stop
  rw [if_neg h]
  cases hkk : s.kill b with
  | error s1 => rw [hkk] at hk; simpa [svcOf, exceptSvc] using hk
  | ok s1 => rw [hkk] at hk; simpa [svcOf, exceptSvc, fireEvent] using hk

/-- Stop preserves the write-handle accounting. -/
theorem stop_handleInv (s : Service) (b : Bool) (h : HandleInv s) :
    HandleInv (svcOf (s.stop b)) := by
  have hk := kill_handleInv s b h
  unfold Service.stop
  by_cases h0 : s.state = .UNDEFINED
  · simpa [h0] using h
  · rw [if_neg h0]
    cases hkk : s.kill b with
    | error s1 => rw [hkk] at hk; simpa [HandleInv, svcOf, exceptSvc] using hk
    | ok s1 => rw [hkk] at hk; simpa [HandleInv, svcOf, exceptSvc, fireEvent] using hk

/-- Transport of the pid invariant through one printLog cycle. -/
theorem printLog_pidInv (s : Service) (a t : Nat) (h : PidInv s) : PidInv (printLog s a t).1 := by
  unfold PidInv at *
  simp only [printLog_fst_state, printLog_fst_pid, printLog_fst_pendingStarts]
  exact h

/-- Transport of the handle accounting through one printLog cycle. -/
theorem printLog_handleInv (s : Service) (a t : Nat) (h : HandleInv s) :
    HandleInv (printLog s a t).1 := by
  unfold HandleInv at *
  simp only [printLog_fst_rid, printLog_fst_openWriteHandles, printLog_fst_leakedWriteHandles]
  exact h

/-- The pid invariant survives a restart call. -/
theorem restart_pidInv (s : Service) (w : Option Nat) (p r t a : Nat) (b : Bool)
    (h : PidInv s) : PidInv (svcOf (s.restart w p r t a b).1) := by
  unfold Service.restart
  by_cases h0 : s.state = .UNDEFINED
  · simpa [h0] using h
  · rw [if_neg h0]
    split
    next s1 heq =>
      show PidInv s1
      have hk := kill_pid { s with state := ServiceState.RESTARTING } b (by simp)
      rw [heq] at hk
      exact pidInv_of_pid_none (by simpa [exceptSvc] using hk)
    next s1 heq =>
      show PidInv ((fireEvent s1 ServiceEvent.onRestart).start (some (w.getD 1)) p r t a).svc
      have hst := kill_state { s with state := ServiceState.RESTARTING } b
      rw [heq] at hst
      simp only [exceptSvc] at hst
      have h2ne : (fireEvent s1 ServiceEvent.onRestart).state ≠ ServiceState.UNDEFINED := by
        simp [hst]
      rcases start_cases (fireEvent s1 ServiceEvent.onRestart) (some (w.getD 1)) p r t a h2ne
        with ⟨hs1, hp1⟩ | hs1
      · refine ⟨fun hu => ?_, fun hz _ => ?_⟩
        · rw [hs1] at hu
          simp [hst] at hu
        · rw [hp1] at hz
          simp at hz
      · refine ⟨fun hu => ?_, fun _ hz => ?_⟩
        · rw [hs1] at hu
          cases hu
        · rcases hz with hz | hz <;> rw [hs1] at hz <;> cases hz

/-- The handle accounting survives a restart call. -/
theorem restart_handleInv (s : Service) (w : Option Nat) (p r t a : Nat) (b : Bool)
    (h : HandleInv s) : HandleInv (svcOf (s.restart w p r t a b).1) := by
  unfold Service.restart
  by_cases h0 : s.state = .UNDEFINED
  · simpa [h0] using h
  · rw [if_neg h0]
    have hR : HandleInv { s with state := ServiceState.RESTARTING } := by
      simpa [HandleInv] using h
    have hk := kill_handleInv { s with state := ServiceState.RESTARTING } b hR
    split
    next s1 heq =>
      show HandleInv s1
      rw [heq] at hk
      simpa [exceptSvc] using hk
    next s1 heq =>
      show HandleInv ((fireEvent s1 ServiceEvent.onRestart).start (some (w.getD 1)) p r t a).svc
      rw [heq] at hk
      simp only [exceptSvc] at hk
      have h2 : HandleInv (fireEvent s1 ServiceEvent.onRestart) := by
        simpa [HandleInv] using hk
      exact start_handleInv (fireEvent s1 ServiceEvent.onRestart) (some (w.getD 1)) p r t a h2

/-! Preservation of the invariants by every event-loop step, and the
reachability induction. -/

/-- One event-loop step preserves the pid discipline. -/
theorem stepFn_pidInv {s s2 : Service} {a : Act} (h : PidInv s) (hs : stepFn s a = some s2) :
    PidInv s2 := by
  cases a with
  | startCall w p r t av =>
    simp only [stepFn] at hs
    injection hs with h2
    subst h2
    by_cases h0 : s.state = .UNDEFINED
    · rw [start_undefined s w p r t av h0]
      exact h
    · rcases start_cases s w p r t av h0 with ⟨hst, hp⟩ | hst
      · refine ⟨fun hu => ?_, fun hz _ => ?_⟩
        · rw [hst] at hu
          exact absurd hu h0
        · rw [hp] at hz
          simp at hz
      · refine ⟨fun hu => ?_, fun _ hz => ?_⟩
        · rw [hst] at hu
          cases hu
        · rcases hz with hz | hz <;> rw [hst] at hz <;> cases hz
  | startFinish =>
    simp only [stepFn] at hs
    split at hs
    · injection hs with h2
      subst h2
      refine ⟨fun hu => ?_, fun _ hz => ?_⟩
      · cases hu
      · rcases hz with hz | hz <;> cases hz
    · cases hs
  | stopCall b =>
    simp only [stepFn] at hs
    injection hs with h2
    subst h2
    by_cases h0 : s.state = .UNDEFINED
    · simp only [Service.stop, if_pos h0, svcOf_pending]
      exact h
    · exact pidInv_of_pid_none (stop_pid s b h0)
  | restartCall w p r t av b =>
    simp only [stepFn] at hs
    injection hs with h2
    subst h2
    exact restart_pidInv s w p r t av b h
  | killCall b =>
    simp only [stepFn] at hs
    injection hs with h2
    subst h2
    by_cases h0 : s.state = .UNDEFINED
    · simp only [Service.kill, if_pos h0, exceptSvc]
      exact h
    · exact pidInv_of_pid_none (kill_pid s b h0)
  | timerFire av t =>
    simp only [stepFn] at hs
    split at hs
    · injection hs with h2
      subst h2
      exact printLog_pidInv s av t h
    · cases hs
  | childExit b =>
    simp only [stepFn] at hs
    split at hs
    · split at hs
      · injection hs with h2
        subst h2
        exact ⟨h.1, fun hz hr => h.2 hz hr⟩
      · split at hs
        next s2' heq =>
          injection hs with h2
          subst h2
          by_cases hU : s.state = ServiceState.UNDEFINED
          · have heq2 := heq
            rw [show ({ s with watchersPending := s.watchersPending - 1 } : Service).kill b
                  = .ok { s with watchersPending := s.watchersPending - 1 } from by
                simp [Service.kill, hU]] at heq2
            injection heq2 with h3
            refine pidInv_of_pid_none ?_
            have : s2'.pid = s.pid := by rw [← h3]
            rw [show (fireEvent { s2' with state := ServiceState.STOPPED }
                  ServiceEvent.onStop).pid = s2'.pid from rfl, this]
            exact h.1 hU
          · have hk := kill_pid { s with watchersPending := s.watchersPending - 1 } b
              (by simpa using hU)
            rw [heq] at hk
            simp only [exceptSvc] at hk
            exact pidInv_of_pid_none (by simpa [fireEvent] using hk)
        next s2' heq =>
          injection hs with h2
          subst h2
          by_cases hU : s.state = ServiceState.UNDEFINED
          · rw [show ({ s with watchersPending := s.watchersPending - 1 } : Service).kill b
                  = .ok { s with watchersPending := s.watchersPending - 1 } from by
                simp [Service.kill, hU]] at heq
            cases heq
          · have hk := kill_pid { s with watchersPending := s.watchersPending - 1 } b
              (by simpa using hU)
            rw [heq] at hk
            simp only [exceptSvc] at hk
            exact pidInv_of_pid_none hk
    · cases hs

/-- One event-loop step preserves the handle accounting. -/
theorem stepFn_handleInv {s s2 : Service} {a : Act} (h : HandleInv s) (hs : stepFn s a = some s2) :
    HandleInv s2 := by
  cases a with
  | startCall w p r t av =>
    simp only [stepFn] at hs
    injection hs with h2
    subst h2
    exact start_handleInv s w p r t av h
  | startFinish =>
    simp only [stepFn] at hs
    split at hs
    · injection hs with h2
      subst h2
      exact h
    · cases hs
  | stopCall b =>
    simp only [stepFn] at hs
    injection hs with h2
    subst h2
    exact stop_handleInv s b h
  | restartCall w p r t av b =>
    simp only [stepFn] at hs
    injection hs with h2
    subst h2
    exact restart_handleInv s w p r t av b h
  | killCall b =>
    simp only [stepFn] at hs
    injection hs with h2
    subst h2
    exact kill_handleInv s b h
  | timerFire av t =>
    simp only [stepFn] at hs
    split at hs
    · injection hs with h2
      subst h2
      exact printLog_handleInv s av t h
    · cases hs
  | childExit b =>
    simp only [stepFn] at hs
    split at hs
    · split at hs
      · injection hs with h2
        subst h2
        exact h
      · have hk := kill_handleInv { s with watchersPending := s.watchersPending - 1 } b h
        split at hs
        next s2' heq =>
          injection hs with h2
          subst h2
          rw [heq] at hk
          simp only [exceptSvc] at hk
          exact hk
        next s2' heq =>
          injection hs with h2
          subst h2
          rw [heq] at hk
          simp only [exceptSvc] at hk
          exact hk
    · cases hs

@[simp] theorem mk_pid (o : ServiceOptions) : (mkService o).pid = none := by
  unfold mkService
  split_ifs <;> rfl

@[simp] theorem mk_tid (o : ServiceOptions) : (mkService o).tid = none := by
  unfold mkService
  split_ifs <;> rfl

@[simp] theorem mk_pendingStarts (o : ServiceOptions) : (mkService o).pendingStarts = 0 := by
  unfold mkService
  split_ifs <;> rfl

@[simp] theorem mk_watchersPending (o : ServiceOptions) : (mkService o).watchersPending = 0 := by
  unfold mkService
  split_ifs <;> rfl

@[simp] theorem mk_openWriteHandles (o : ServiceOptions) :
    (mkService o).openWriteHandles = 0 := by
  unfold mkService
  split_ifs <;> rfl

@[simp] theorem mk_leakedWriteHandles (o : ServiceOptions) :
    (mkService o).leakedWriteHandles = 0 := by
  unfold mkService
  split_ifs <;> rfl

@[simp] theorem mk_rid (o : ServiceOptions) : (mkService o).rid = none := by
  unfold mkService
  split_ifs <;> rfl

theorem mk_pidInv (o : ServiceOptions) : PidInv (mkService o) :=
  pidInv_of_pid_none (mk_pid o)

theorem mk_handleInv (o : ServiceOptions) : HandleInv (mkService o) := by
  unfold HandleInv
  simp

/-- Every state reachable from an initial state satisfying the pid
discipline satisfies it. -/
theorem reachableFrom_pidInv {s0 s : Service} (h0 : PidInv s0) (h : ReachableFrom s0 s) :
    PidInv s := by
  induction h with
  | refl => exact h0
  | step a hr hst ih => exact stepFn_pidInv ih hst

theorem reachable_pidInv {s : Service} (h : Reachable s) : PidInv s := by
  obtain ⟨o, hr⟩ := h
  exact reachableFrom_pidInv (mk_pidInv o) hr

theorem reachableFrom_handleInv {s0 s : Service} (h0 : HandleInv s0)
    (h : ReachableFrom s0 s) : HandleInv s := by
  induction h with
  | refl => exact h0
  | step a hr hst ih => exact stepFn_handleInv ih hst

theorem reachable_handleInv {s : Service} (h : Reachable s) : HandleInv s := by
  obtain ⟨o, hr⟩ := h
  exact reachableFrom_handleInv (mk_handleInv o) hr

/-! The UNDEFINED state is a fixed point of every event-loop step. -/

theorem mk_undef_state (o : ServiceOptions) (hc : o.command = none) :
    (mkService o).state = .UNDEFINED := by
  simp [mkService, hc]

theorem mk_undef_firedEvents (o : ServiceOptions) (hc : o.command = none) :
    (mkService o).firedEvents = [] := by
  simp [mkService, hc, baseService]

/-- A service in state UNDEFINED with no pending timer, watcher or start
continuation is left unchanged by every enabled step. -/
theorem stepFn_undef_fixed {s : Service} (hst : s.state = .UNDEFINED) (hp : s.pendingStarts = 0)
    (ht : s.tid = none) (hw : s.watchersPending = 0) (a : Act) {s2 : Service}
    (hs : stepFn s a = some s2) : s2 = s := by
  cases a <;>
    simp_all [stepFn, Service.stop, Service.restart, Service.kill, start_undefined,
      exceptSvc, svcOf]

/-- Every state reachable from a constructor call without a command is the
constructed state itself. -/
theorem reachableFrom_undef {o : ServiceOptions} (hc : o.command = none) {s : Service}
    (h : ReachableFrom (mkService o) s) : s = mkService o := by
  induction h with
  | refl => rfl
  | step a hr hst ih =>
    rw [ih] at hst
    exact (stepFn_undef_fixed (mk_undef_state o hc) (mk_pendingStarts o) (mk_tid o)
      (mk_watchersPending o) a hst).trans rfl

/-! Claim theorems. -/

/-- Options of a Service constructed without a command. -/
def noCommandOptions : ServiceOptions := ⟨none, none, none, none, .noLog⟩

/-- Claim C1: for every Service constructed without a command, the state is
UNDEFINED from construction onward, and every sequence of event-loop steps
(start, stop, restart and kill with any arguments, in any order, any
number of times) leaves the whole record unchanged, the state UNDEFINED,
and the event log empty: no callback is ever invoked. -/
theorem c1_undefined_inert (o : ServiceOptions) (s : Service) (hc : o.command = none)
    (h : ReachableFrom (mkService o) s) :
    s = mkService o ∧ s.state = ServiceState.UNDEFINED ∧ s.firedEvents = [] := by
  have he := reachableFrom_undef hc h
  subst he
  exact ⟨rfl, mk_undef_state o hc, mk_undef_firedEvents o hc⟩

/-- Witness for C1: a concrete command-less service, after a stop call, is
still the constructed UNDEFINED record with an empty event log. -/
theorem c1_witness :
    svcOf ((mkService noCommandOptions).stop false) = mkService noCommandOptions ∧
    (svcOf ((mkService noCommandOptions).stop false)).state = ServiceState.UNDEFINED ∧
    (svcOf ((mkService noCommandOptions).stop false)).firedEvents = [] :=
  c1_undefined_inert noCommandOptions (svcOf ((mkService noCommandOptions).stop false)) rfl
    (ReachableFrom.step (Act.stopCall false) (ReachableFrom.refl (mkService noCommandOptions)) rfl)

/-- Options with a command and a positive startWait. -/
def warmupOptions : ServiceOptions := ⟨some "c", none, none, some 5, .noLog⟩

/-- State observed at the suspension point of a first start call: the
warm-up sleep of src/Service.ts line 154 is in progress. -/
def warmupMidStart : Service := ((mkService warmupOptions).start none 42 3 7 0).svc

/-- Claim C2 counterexample: a reachable state (a first start call with
startWait 5, observed while it is suspended in its warm-up sleep) has
state READY with pid already recorded, contradicting the claim that pid is
null in state READY. -/
theorem c2_counterexample :
    Reachable warmupMidStart ∧ warmupMidStart.state = ServiceState.READY ∧
    warmupMidStart.pid = some 42 :=
  ⟨⟨warmupOptions, ReachableFrom.step (Act.startCall none 42 3 7 0)
      (ReachableFrom.refl (mkService warmupOptions)) rfl⟩, rfl, rfl⟩

/-- Claim C2, amended: at every reachable point the pid is none in state
UNDEFINED, and none in states READY and STOPPED whenever no start call is
suspended in its warm-up wait; while a start call is suspended the pid may
already be recorded with the state not yet advanced to STARTED. -/
theorem c2_pid_null_when_inactive (s : Service) (h : Reachable s) :
    (s.state = ServiceState.UNDEFINED → s.pid = none) ∧
    (s.pendingStarts = 0 →
      (s.state = ServiceState.READY ∨ s.state = ServiceState.STOPPED) → s.pid = none) :=
  reachable_pidInv h

/-- Options used by the C2 witness. -/
def c2WitnessOptions : ServiceOptions := ⟨some "c", none, none, none, .noLog⟩

/-- Reachable state used by the C2 witness: started then stopped. -/
def c2WitnessState : Service :=
  svcOf (Service.stop ((mkService c2WitnessOptions).start none 5 3 7 0).svc false)

/-- Witness for C2 at a started-then-stopped concrete service. -/
theorem c2_witness :
    (c2WitnessState.state = ServiceState.UNDEFINED → c2WitnessState.pid = none) ∧
    (c2WitnessState.pendingStarts = 0 →
      (c2WitnessState.state = ServiceState.READY ∨ c2WitnessState.state = ServiceState.STOPPED) →
      c2WitnessState.pid = none) :=
  c2_pid_null_when_inactive c2WitnessState
    ⟨c2WitnessOptions, ReachableFrom.step (Act.stopCall false)
      (ReachableFrom.step (Act.startCall none 5 3 7 0)
        (ReachableFrom.refl (mkService c2WitnessOptions)) rfl) rfl⟩

/-- Options with a command and startWait 500 ms. -/
def slowStartOptions : ServiceOptions := ⟨some "c", none, none, some 500, .noLog⟩

/-- Claim C3 counterexample: with configured startWait = 500, restart()
with no wait argument sleeps 1 ms (the hard default of the wait parameter,
src/Service.ts line 179), while restart(startWait) sleeps 500 ms: the two
calls do not behave the same. -/
theorem c3_counterexample :
    ((mkService slowStartOptions).restart none 9 3 7 0 false).2 = some 1 ∧
    ((mkService slowStartOptions).restart (some 500) 9 3 7 0 false).2 = some 500 ∧
    ((mkService slowStartOptions).restart none 9 3 7 0 false).2 ≠
      ((mkService slowStartOptions).restart (some 500) 9 3 7 0 false).2 :=
  ⟨rfl, rfl, by decide⟩

/-- Claim C3, amended: restart with no wait argument behaves exactly as
restart with wait 1, for every service and environment: the default of the
wait parameter is the literal 1, so the warm-up delay of a bare restart()
is 1 ms and the configured startWait is ignored (start sleeps the explicit
wait whenever it is positive). -/
theorem c3_restart_default_one (s : Service) (p r t a : Nat) (b : Bool) :
    s.restart none p r t a b = s.restart (some 1) p r t a b := rfl

/-- Options arming the tailer through a numeric printTTL. -/
def armedTailOptions : ServiceOptions :=
  ⟨some "c", none, none, none, .obj "svc.log" none (some 4)⟩

/-- Armed tailer state right after a start call: the start cycle already
ran once (retryCount 1, streamed 0, tail 0), the service is STARTED. -/
def armedTailService : Service := ((mkService armedTailOptions).start none 5 3 7 0).svc

/-- Claim C4 is violated by the code: in a poll cycle that reads and
forwards 10 fresh bytes (streamed goes 0 to 10, strictly past the tail
snapshot 0), retryCount is incremented from 1 to 2 instead of being reset
to 0.  The comparison of line 253 runs before the asynchronous read
callback delivers any bytes, so streamed always equals the tail snapshot
at the check and the reset branch is unreachable. -/
theorem c4_retry_not_reset :
    armedTailService.logFile.retryCount = 1 ∧
    armedTailService.logFile.streamed = 0 ∧
    ((printLog armedTailService 10 8).1).logFile.streamed = 10 ∧
    ((printLog armedTailService 10 8).1).logFile.retryCount = 2 :=
  ⟨rfl, rfl, rfl, rfl⟩

/-- Claim C5: a poll cycle schedules a successor cycle exactly when print
is enabled, the entry retryCount is below printTTL, and the state is READY
or STARTED; so the tailer never reschedules from STOPPED or RESTARTING and
goes idle once retryCount reaches printTTL. -/
theorem c5_reschedule_iff (s : Service) (avail newTid : Nat) :
    (printLog s avail newTid).2 = true ↔
      (s.logFile.print = true ∧ s.logFile.retryCount < s.logFile.printTTL ∧
        (s.state = ServiceState.READY ∨ s.state = ServiceState.STARTED)) := by
  simp only [printLog]
  split_ifs with h1 h2 h3 h4 h5 <;> simp_all
  tauto

/-- Options with a command and a plain log path (print off). -/
def loggedOptions : ServiceOptions := ⟨some "c", none, none, none, .strPath "svc.log"⟩

/-- Service after one start call with the log configured. -/
def loggedStarted : Service := ((mkService loggedOptions).start none 10 3 7 0).svc

/-- Service after a second start call issued while already STARTED. -/
def loggedDoubleStart : Service := (loggedStarted.start none 11 4 8 0).svc

/-- Claim C6 counterexample: start called while already STARTED opens a
second write handle and overwrites rid without closing the first one, so a
reachable state holds two open log write handles at once. -/
theorem c6_counterexample :
    Reachable loggedDoubleStart ∧ loggedDoubleStart.openWriteHandles = 2 :=
  ⟨⟨loggedOptions, ReachableFrom.step (Act.startCall none 11 4 8 0)
      (ReachableFrom.step (Act.startCall none 10 3 7 0)
        (ReachableFrom.refl (mkService loggedOptions)) rfl) rfl⟩, rfl⟩

/-- Claim C6, amended: every termination (stop, restart, kill, detected
natural exit) closes the tracked write handle before a new one is opened
by the restart re-spawn, and at every reachable point at which no handle
has been orphaned at most one write handle is open; a start call while a
handle is already tracked orphans that handle (src/Service.ts line 141
overwrites rid without closing), which is the only way two open handles
become reachable. -/
theorem c6_single_handle_unless_orphaned (s : Service) (h : Reachable s)
    (hleak : s.leakedWriteHandles = 0) : s.openWriteHandles ≤ 1 := by
  have hi := reachable_handleInv h
  unfold HandleInv at hi
  rw [hleak] at hi
  split at hi <;> omega

/-- Witness for C6 at the freshly constructed logged service. -/
theorem c6_witness : (mkService loggedOptions).openWriteHandles ≤ 1 :=
  c6_single_handle_unless_orphaned (mkService loggedOptions)
    ⟨loggedOptions, ReachableFrom.refl (mkService loggedOptions)⟩ (by simp)

/-- Options of a short-lived echo service without a log file. -/
def echoOptions : ServiceOptions := ⟨some "echo", some ["hi"], none, none, .noLog⟩

/-- The echo service right after start: STARTED with an open process
resource. -/
def echoStarted : Service := ((mkService echoOptions).start none 5 3 7 0).svc

/-- Outcome of the first stop call. -/
def echoStopOnce : PromiseResult := echoStarted.stop false

/-- Outcome of the second stop call. -/
def echoStopTwice : PromiseResult := (svcOf echoStopOnce).stop false

/-- Claim C7 is violated by the code: the first stop resolves and leaves
state STOPPED, but the second stop rejects.  this.proc is never cleared,
so the second kill reaches proc?.close() on an already closed process
resource, which throws BadResource; the executor catch turns that into a
rejected promise.  The state does remain STOPPED after each call. -/
theorem c7_second_stop_rejects :
    echoStopOnce.isResolved = true ∧ (svcOf echoStopOnce).state = ServiceState.STOPPED ∧
    echoStopTwice.isRejected = true ∧ (svcOf echoStopTwice).state = ServiceState.STOPPED :=
  ⟨rfl, rfl, rfl, rfl⟩

/-- Stop is independent of whether the caught Deno.kill signal failed. -/
theorem stop_sigFail (s : Service) (b : Bool) : s.stop b = s.stop false := by
  unfold Service.stop
  rw [kill_sigFail]

/-- Restart is independent of whether the caught Deno.kill signal failed. -/
theorem restart_sigFail (s : Service) (w : Option Nat) (p r t a : Nat) (b : Bool) :
    s.restart w p r t a b = s.restart w p r t a false := by
  unfold Service.restart
  rw [kill_sigFail]

/-- Outside UNDEFINED, with the process resource not already closed, kill
returns ok with pid cleared, timer cancelled and write handle released. -/
theorem kill_ok_clears (s : Service) (b : Bool) (h1 : s.state ≠ ServiceState.UNDEFINED)
    (h2 : s.procOpen ≠ some false) :
    ∃ s2, s.kill b = .ok s2 ∧ s2.pid = none ∧ s2.tid = none ∧ s2.rid = none := by
  refine ⟨killRidStep (killTidStep (killProcStep (killPidStep s b))), ?_, by simp, by simp,
    by simp⟩
  simp only [Service.kill, if_neg h1]
  rw [if_neg (by simpa using h2)]

/-- Outside UNDEFINED, with the process resource not already closed, stop
resolves. -/
theorem stop_resolves (s : Service) (b : Bool) (h1 : s.state ≠ ServiceState.UNDEFINED)
    (h2 : s.procOpen ≠ some false) : ∃ s3, s.stop b = .resolved s3 := by
  obtain ⟨s2, hk, -, -, -⟩ := kill_ok_clears s b h1 h2
  refine ⟨fireEvent { s2 with state := .STOPPED } .onStop, ?_⟩
  simp only [Service.stop, if_neg h1]
  rw [hk]

/-- Outside UNDEFINED, with the process resource not already closed,
restart resolves. -/
theorem restart_resolves (s : Service) (w : Option Nat) (p r t a : Nat) (b : Bool)
    (h1 : s.state ≠ ServiceState.UNDEFINED) (h2 : s.procOpen ≠ some false) :
    ∃ s4 d, s.restart w p r t a b = (.resolved s4, d) := by
  obtain ⟨s2, hk, -, -, -⟩ := kill_ok_clears { s with state := ServiceState.RESTARTING } b
    (by simp) h2
  refine ⟨((fireEvent s2 .onRestart).start (some (w.getD 1)) p r t a).svc,
    ((fireEvent s2 .onRestart).start (some (w.getD 1)) p r t a).sleepMs, ?_⟩
  simp only [Service.restart, if_neg h1]
  rw [hk]

/-- Claim C8: a failure of Deno.kill signal delivery to the recorded pid
is caught and discarded: kill, stop and restart behave exactly as with
successful delivery; kill completes returning ok with the rest of the
termination routine done (pid cleared, timer cancelled, write handle
released), and stop and restart still settle by resolving. -/
theorem c8_signal_failure_benign (s : Service) (b : Bool) (w : Option Nat) (p r t a : Nat)
    (h1 : s.state ≠ ServiceState.UNDEFINED) (h2 : s.procOpen ≠ some false)
    (h3 : s.pid ≠ none) :
    s.kill b = s.kill false ∧
    s.stop b = s.stop false ∧
    s.restart w p r t a b = s.restart w p r t a false ∧
    (∃ s2, s.kill b = .ok s2 ∧ s2.pid = none ∧ s2.tid = none ∧ s2.rid = none) ∧
    (∃ s3, s.stop b = .resolved s3) ∧
    (∃ s4 d, s.restart w p r t a b = (.resolved s4, d)) :=
  ⟨kill_sigFail s b, stop_sigFail s b, restart_sigFail s w p r t a b,
    kill_ok_clears s b h1 h2, stop_resolves s b h1 h2, restart_resolves s w p r t a b h1 h2⟩

/-- Options used by the C8 witness: log armed, so a timer and a write
handle exist when the signal failure races with termination. -/
def c8Options : ServiceOptions := ⟨some "c", none, none, none, .obj "svc.log" none (some 4)⟩

/-- Started service used by the C8 witness: pid 6, timer 9, write handle 4
all present, process resource open. -/
def c8Started : Service := ((mkService c8Options).start none 6 4 9 0).svc

/-- Witness for C8 at the started service with a failing signal. -/
theorem c8_witness :
    c8Started.kill true = c8Started.kill false ∧
    c8Started.stop true = c8Started.stop false ∧
    c8Started.restart none 7 5 10 0 true = c8Started.restart none 7 5 10 0 false ∧
    (∃ s2, c8Started.kill true = .ok s2 ∧ s2.pid = none ∧ s2.tid = none ∧ s2.rid = none) ∧
    (∃ s3, c8Started.stop true = .resolved s3) ∧
    (∃ s4 d, c8Started.restart none 7 5 10 0 true = (.resolved s4, d)) :=
  c8_signal_failure_benign c8Started true none 7 5 10 0 (by decide) (by decide) (by decide)

/-- Claim C9 is violated by the code on its explicit-print clause: with
logFile = an object carrying print false and printTTL 7, the explicit
print value false is overridden to true, because a numeric printTTL always
forces print on (src/Service.ts line 28), contradicting the Interfaces.ts
documentation that printTTL is ignored when print is false.  The other
clauses hold: numeric printTTL with print unset turns print on; without a
numeric printTTL print stays off when unset (object, plain string and
absent forms); explicit true is kept; printTTL defaults to 4. -/
theorem c9_print_override :
    (logFileHandler (.obj "svc.log" (some false) (some 7))).print = true ∧
    (logFileHandler (.obj "svc.log" none (some 7))).print = true ∧
    (logFileHandler (.obj "svc.log" none none)).print = false ∧
    (logFileHandler (.obj "svc.log" (some false) none)).print = false ∧
    (logFileHandler (.strPath "svc.log")).print = false ∧
    (logFileHandler .noLog).print = false ∧
    (logFileHandler (.obj "svc.log" (some true) none)).print = true ∧
    (logFileHandler (.obj "svc.log" none none)).printTTL = 4 ∧
    (logFileHandler (.strPath "svc.log")).printTTL = 4 ∧
    (logFileHandler .noLog).printTTL = 4 :=
  ⟨rfl, rfl, rfl, rfl, rfl, rfl, rfl, rfl, rfl, rfl⟩

/-- Claim C10: with a log path configured, print(true) in state STOPPED or
RESTARTING runs exactly one read-and-forward cycle: the available bytes
are forwarded to standard output and streamed advances by them, and no
successor poll cycle is scheduled (the poll loop only continues from READY
or STARTED). -/
theorem c10_print_single_cycle (s : Service) (avail newTid : Nat)
    (hpath : s.logFile.path ≠ none)
    (hstate : s.state = ServiceState.STOPPED ∨ s.state = ServiceState.RESTARTING) :
    (s.print true avail newTid).2 = false ∧
    ((s.print true avail newTid).1).logFile.streamed = s.logFile.streamed + (avail : Int) ∧
    ((s.print true avail newTid).1).stdoutBytes = s.stdoutBytes + avail := by
  have hstate2 : ¬(s.state = ServiceState.STARTED ∨ s.state = ServiceState.READY) := by
    rcases hstate with h | h <;> rw [h] <;> simp
  simp only [Service.print, Service.printer, printLog, if_neg hpath]
  split_ifs with ha hb hc hd he <;> simp_all

/-- Options used by the C10 witness. -/
def c10Options : ServiceOptions := ⟨some "c", none, none, none, .strPath "svc.log"⟩

/-- Stopped service with a configured log path, used by the C10 witness. -/
def c10Stopped : Service :=
  svcOf (Service.stop ((mkService c10Options).start none 5 3 7 0).svc false)

/-- Witness for C10: print(true) on the stopped service forwards the 5
available bytes and schedules nothing. -/
theorem c10_witness :
    (c10Stopped.print true 5 9).2 = false ∧
    ((c10Stopped.print true 5 9).1).logFile.streamed =
      c10Stopped.logFile.streamed + ((5 : Nat) : Int) ∧
    ((c10Stopped.print true 5 9).1).stdoutBytes = c10Stopped.stdoutBytes + 5 :=
  c10_print_single_cycle c10Stopped 5 9 (by decide) (Or.inl rfl)

end ManagedDaemon
